import Mathlib

/-!
Delegate: a fixed-size, non-owning, type-erased callable handle.

Shallow embedding of `src/delegate.h` (`valley::lang::Delegate<R(Args...)>`).

* Pointers are `Option Addr`; `none` is `nullptr`.
* `H` is the state of the whole memory the bound callables may read and write,
  `A` is the argument pack `Args...`, `R` the return type of the handle and
  `R2` the return type `Return` of a bound callable.
* A static C++ type that a dispatcher lambda is instantiated with (the
  function-pointer type `Fn`, the class `Functor`, the member-pointer type
  `Mem_fn`) is represented by what that type lets the lambda do with the
  untyped bits: the view of a code address as a function of that type, or the
  call operator of the class.
* `static_cast<R>` is the conversion `conv : R2 → R` applied to the returned
  value (for `R = void` the conversion to `Unit`).
* `assert` follows `<cassert>`: it is checked unless `NDEBUG` is defined.
-/

namespace valley.lang

/-- A machine address. -/
abbrev Addr := Nat

/-- What evaluating a call expression leads to: a returned value together with
the memory after the call, an abort at a failed `assert`, or behaviour the
language leaves undefined (a call through a null or ill-typed pointer). -/
inductive Outcome (R H : Type) where
  | returned (value : R) (mem : H)
  | assert_failed
  | undefined_behaviour

variable {H A R R2 : Type}

/-- Conversion `static_cast<R>(e)` of the value a call expression returns. -/
def static_cast (conv : R2 → R) : Outcome R2 H → Outcome R H
  | Outcome.returned value mem => Outcome.returned (conv value) mem
  | Outcome.assert_failed => Outcome.assert_failed
  | Outcome.undefined_behaviour => Outcome.undefined_behaviour

/-- The value a call returned, if it returned. -/
def Outcome.value? : Outcome R H → Option R
  | Outcome.returned value _ => some value
  | _ => none

/-- The memory after a call, if it returned. -/
def Outcome.mem? : Outcome R H → Option H
  | Outcome.returned _ mem => some mem
  | _ => none

/-- The type `Return(*)(XArgs ...)`: which function of that type, if any, a
code address designates. A function may read and write the memory. -/
abbrev FnType (H A R2 : Type) := Addr → Option (A → H → R2 × H)

/-- A class `Functor` as seen by a call `functor(args ...)`: its call operator,
which receives the address of the instance it is invoked on. -/
abbrev FunctorType (H A R2 : Type) := Addr → A → H → R2 × H

/-- The type `Return(T::*)(XArgs ...)` (or its `const` variant): which member
function of `T`, if any, a member-pointer bit pattern designates. The member
function receives the address of the object it is invoked on. -/
abbrev MemFnType (H A R2 : Type) := Addr → Option (Addr → A → H → R2 × H)

/-- The call expression `function(args ...)` through a pointer of type `Fn`. -/
def call_function (Fn : FnType H A R2) (function : Option Addr) (args : A) (mem : H) :
    Outcome R2 H :=
  match function with
  | none => Outcome.undefined_behaviour
  | some p =>
    match Fn p with
    | none => Outcome.undefined_behaviour
    | some f => Outcome.returned (f args mem).1 (f args mem).2

/-- The call expression `functor(args ...)` on the instance of class `Functor`
that the pointer designates. -/
def call_functor (Functor : FunctorType H A R2) (functor : Option Addr) (args : A) (mem : H) :
    Outcome R2 H :=
  match functor with
  | none => Outcome.undefined_behaviour
  | some p => Outcome.returned (Functor p args mem).1 (Functor p args mem).2

/-- The call expression `(object->*mem_fn)(args ...)` with `mem_fn` of type
`Mem_fn`. -/
def call_mem_fn (Mem_fn : MemFnType H A R2) (object : Option Addr) (mem_fn : Option Addr)
    (args : A) (mem : H) : Outcome R2 H :=
  match object, mem_fn with
  | some p, some c =>
    match Mem_fn c with
    | none => Outcome.undefined_behaviour
    | some m => Outcome.returned (m p args mem).1 (m p args mem).2
  | _, _ => Outcome.undefined_behaviour

/-- The anonymous union inside `Storage`: one slot of untyped bits, tagged with
the member that was written last. -/
inductive Code where
  | dummy_fn (bits : Option Addr)
  | dummy_mem_fn (bits : Option Addr)
  deriving DecidableEq, Repr

/-- The struct `Storage`: `const void* object{ nullptr }` and the union, whose
member `dummy_fn` is initialised to `nullptr`. -/
structure Storage where
  object : Option Addr := none
  code : Code := Code.dummy_fn none
  deriving DecidableEq, Repr

/-- The alias `Apply = R(*)(const Storage&, Args...)`: a dispatcher. -/
abbrev Apply (H A R : Type) := Storage → A → H → Outcome R H

/-- The class `Delegate<R(Args...)>`: its members `storage_` and
`apply_{ nullptr }`. -/
structure Delegate (H A R : Type) where
  storage_ : Storage := {}
  apply_ : Option (Apply H A R) := none

/-- The defaulted constructor `Delegate()`. -/
def Delegate.default_ctor : Delegate H A R := {}

/-- Dispatcher generated by `bind(Return(*)(XArgs ...))`: reads `dummy_fn`,
casts it back to `Fn`, calls it and casts the result to `R`. -/
def apply_function (Fn : FnType H A R2) (conv : R2 → R) : Apply H A R :=
  fun storage args mem =>
    match storage.code with
    | Code.dummy_fn function => static_cast conv (call_function Fn function args mem)
    | Code.dummy_mem_fn _ => Outcome.undefined_behaviour

/-- Dispatcher generated by `bind(Functor&)`: casts `object` back to
`Functor*` and calls the instance. -/
def apply_functor (Functor : FunctorType H A R2) (conv : R2 → R) : Apply H A R :=
  fun storage args mem => static_cast conv (call_functor Functor storage.object args mem)

/-- Dispatcher generated by `bind(const Functor&)`: casts `object` back to
`const Functor*` and calls the instance. -/
def apply_const_functor (Functor : FunctorType H A R2) (conv : R2 → R) : Apply H A R :=
  fun storage args mem => static_cast conv (call_functor Functor storage.object args mem)

/-- Dispatcher generated by `bind(T*, Return(T::*)(XArgs ...))`: casts `object`
to `T*` and `dummy_mem_fn` to `Mem_fn`, then calls the member. -/
def apply_mem_fn (Mem_fn : MemFnType H A R2) (conv : R2 → R) : Apply H A R :=
  fun storage args mem =>
    match storage.code with
    | Code.dummy_mem_fn mem_fn =>
      static_cast conv (call_mem_fn Mem_fn storage.object mem_fn args mem)
    | Code.dummy_fn _ => Outcome.undefined_behaviour

/-- Dispatcher generated by `bind(const T*, Return(T::*)(XArgs ...) const)`. -/
def apply_const_mem_fn (Mem_fn : MemFnType H A R2) (conv : R2 → R) : Apply H A R :=
  fun storage args mem =>
    match storage.code with
    | Code.dummy_mem_fn mem_fn =>
      static_cast conv (call_mem_fn Mem_fn storage.object mem_fn args mem)
    | Code.dummy_fn _ => Outcome.undefined_behaviour

/-- The member `bind(Return(*function)(XArgs ...))`: writes `dummy_fn` and
`apply_`; `storage_.object` is not written. -/
def Delegate.bind_function (self : Delegate H A R) (Fn : FnType H A R2) (conv : R2 → R)
    (function : Option Addr) : Delegate H A R :=
  { storage_ := { object := self.storage_.object, code := Code.dummy_fn function },
    apply_ := some (apply_function Fn conv) }

/-- The member `bind(Functor& functor)`: writes `object` and `apply_`; the
union is not written. A reference is never null. -/
def Delegate.bind_functor (self : Delegate H A R) (Functor : FunctorType H A R2)
    (conv : R2 → R) (functor : Addr) : Delegate H A R :=
  { storage_ := { object := some functor, code := self.storage_.code },
    apply_ := some (apply_functor Functor conv) }

/-- The member `bind(const Functor& functor)`. -/
def Delegate.bind_const_functor (self : Delegate H A R) (Functor : FunctorType H A R2)
    (conv : R2 → R) (functor : Addr) : Delegate H A R :=
  { storage_ := { object := some functor, code := self.storage_.code },
    apply_ := some (apply_const_functor Functor conv) }

/-- The member `bind(T* object, Return(T::* mem_fn)(XArgs ...))`: writes
`object`, `dummy_mem_fn` and `apply_`. -/
def Delegate.bind_mem_fn (_self : Delegate H A R) (Mem_fn : MemFnType H A R2) (conv : R2 → R)
    (object : Option Addr) (mem_fn : Option Addr) : Delegate H A R :=
  { storage_ := { object := object, code := Code.dummy_mem_fn mem_fn },
    apply_ := some (apply_mem_fn Mem_fn conv) }

/-- The member `bind(const T* object, Return(T::* mem_fn)(XArgs ...) const)`. -/
def Delegate.bind_const_mem_fn (_self : Delegate H A R) (Mem_fn : MemFnType H A R2)
    (conv : R2 → R) (object : Option Addr) (mem_fn : Option Addr) : Delegate H A R :=
  { storage_ := { object := object, code := Code.dummy_mem_fn mem_fn },
    apply_ := some (apply_const_mem_fn Mem_fn conv) }

/-- The conversion `operator bool() const`: `apply_ != nullptr`. -/
def Delegate.operator_bool (self : Delegate H A R) : Bool :=
  self.apply_.isSome

/-- The call operator `R operator()(Args ... args) const`:
`assert(apply_ != nullptr)`, checked unless `NDEBUG`, then the call
`(*apply_)(storage_, args...)`, which is undefined through a null `apply_`. -/
def Delegate.operator_call (NDEBUG : Bool) (self : Delegate H A R) (args : A) (mem : H) :
    Outcome R H :=
  if !NDEBUG && !self.apply_.isSome then Outcome.assert_failed
  else
    match self.apply_ with
    | some apply => apply self.storage_ args mem
    | none => Outcome.undefined_behaviour

/-- The member `clear()`: `apply_ = nullptr`; `storage_` is not written. -/
def Delegate.clear (self : Delegate H A R) : Delegate H A R :=
  { storage_ := self.storage_, apply_ := none }

/-- The defaulted copy constructor `Delegate(const Delegate&)`: memberwise. -/
def Delegate.copy_ctor (rhs : Delegate H A R) : Delegate H A R :=
  { storage_ := rhs.storage_, apply_ := rhs.apply_ }

/-- The defaulted copy assignment `operator=(const Delegate&)`: memberwise,
whatever the assigned-to handle held. -/
def Delegate.operator_assign (_self : Delegate H A R) (rhs : Delegate H A R) : Delegate H A R :=
  { storage_ := rhs.storage_, apply_ := rhs.apply_ }

/-- The constructor `Delegate(Return(*function)(XArgs ...))`: the members take
their default initialisers, then `bind(function)`. -/
def Delegate.ctor_function (Fn : FnType H A R2) (conv : R2 → R) (function : Option Addr) :
    Delegate H A R :=
  let fresh : Delegate H A R :=
    { storage_ := { object := none, code := Code.dummy_fn none }, apply_ := none }
  fresh.bind_function Fn conv function

/-- The constructor `Delegate(Functor& functor)`. -/
def Delegate.ctor_functor (Functor : FunctorType H A R2) (conv : R2 → R) (functor : Addr) :
    Delegate H A R :=
  let fresh : Delegate H A R :=
    { storage_ := { object := none, code := Code.dummy_fn none }, apply_ := none }
  fresh.bind_functor Functor conv functor

/-- The constructor `Delegate(const Functor& functor)`. -/
def Delegate.ctor_const_functor (Functor : FunctorType H A R2) (conv : R2 → R)
    (functor : Addr) : Delegate H A R :=
  let fresh : Delegate H A R :=
    { storage_ := { object := none, code := Code.dummy_fn none }, apply_ := none }
  fresh.bind_const_functor Functor conv functor

/-- The constructor `Delegate(T* object, Return(T::* mem_fn)(XArgs ...))`. -/
def Delegate.ctor_mem_fn (Mem_fn : MemFnType H A R2) (conv : R2 → R) (object : Option Addr)
    (mem_fn : Option Addr) : Delegate H A R :=
  let fresh : Delegate H A R :=
    { storage_ := { object := none, code := Code.dummy_fn none }, apply_ := none }
  fresh.bind_mem_fn Mem_fn conv object mem_fn

/-- The constructor `Delegate(const T* object, Return(T::* mem_fn)(XArgs ...) const)`. -/
def Delegate.ctor_const_mem_fn (Mem_fn : MemFnType H A R2) (conv : R2 → R)
    (object : Option Addr) (mem_fn : Option Addr) : Delegate H A R :=
  let fresh : Delegate H A R :=
    { storage_ := { object := none, code := Code.dummy_fn none }, apply_ := none }
  fresh.bind_const_mem_fn Mem_fn conv object mem_fn

/-- The argument list of one `bind` call (or binding constructor), one
constructor per overload, with the static types the overload deduces. -/
inductive Binding (H A R : Type) : Type 1 where
  | function {R2 : Type} (Fn : FnType H A R2) (conv : R2 → R) (function : Option Addr)
  | functor {R2 : Type} (Functor : FunctorType H A R2) (conv : R2 → R) (functor : Addr)
  | const_functor {R2 : Type} (Functor : FunctorType H A R2) (conv : R2 → R) (functor : Addr)
  | mem_fn {R2 : Type} (Mem_fn : MemFnType H A R2) (conv : R2 → R) (object : Option Addr)
      (mem_fn : Option Addr)
  | const_mem_fn {R2 : Type} (Mem_fn : MemFnType H A R2) (conv : R2 → R)
      (object : Option Addr) (mem_fn : Option Addr)

/-- Overload resolution of `bind(...)`. -/
def Delegate.bind (self : Delegate H A R) : Binding H A R → Delegate H A R
  | Binding.function Fn conv function => self.bind_function Fn conv function
  | Binding.functor Functor conv functor => self.bind_functor Functor conv functor
  | Binding.const_functor Functor conv functor => self.bind_const_functor Functor conv functor
  | Binding.mem_fn Mem_fn conv object mem_fn => self.bind_mem_fn Mem_fn conv object mem_fn
  | Binding.const_mem_fn Mem_fn conv object mem_fn =>
    self.bind_const_mem_fn Mem_fn conv object mem_fn

/-- Overload resolution of the binding constructors `Delegate(...)`. -/
def Delegate.ctor : Binding H A R → Delegate H A R
  | Binding.function Fn conv function => Delegate.ctor_function Fn conv function
  | Binding.functor Functor conv functor => Delegate.ctor_functor Functor conv functor
  | Binding.const_functor Functor conv functor => Delegate.ctor_const_functor Functor conv functor
  | Binding.mem_fn Mem_fn conv object mem_fn => Delegate.ctor_mem_fn Mem_fn conv object mem_fn
  | Binding.const_mem_fn Mem_fn conv object mem_fn =>
    Delegate.ctor_const_mem_fn Mem_fn conv object mem_fn

/-- The target of a binding called directly, once, without any handle: the
expression `static_cast<R>(function(args...))`, `static_cast<R>(functor(args...))`
or `static_cast<R>((object->*mem_fn)(args...))` on the caller's own pointers. -/
def Binding.direct_call : Binding H A R → A → H → Outcome R H
  | Binding.function Fn conv f, args, mem =>
    static_cast conv (call_function Fn f args mem)
  | Binding.functor Functor conv g, args, mem =>
    static_cast conv (call_functor Functor (some g) args mem)
  | Binding.const_functor Functor conv g, args, mem =>
    static_cast conv (call_functor Functor (some g) args mem)
  | Binding.mem_fn Mem_fn conv o m, args, mem =>
    static_cast conv (call_mem_fn Mem_fn o m args mem)
  | Binding.const_mem_fn Mem_fn conv o m, args, mem =>
    static_cast conv (call_mem_fn Mem_fn o m args mem)


/-- Two handle objects of one scope: a handle and the copy made of it. A
member function called on one of them acts on that object only. -/
structure Handles (H A R : Type) where
  original : Delegate H A R
  copy : Delegate H A R

/-- The declaration `Delegate c{ h };` with `h` a handle object at address
`h_addr`. Overload resolution among the constructors: for a const `h` the
copy constructor `Delegate(const Delegate&)` is selected, a memberwise copy;
for a non-const lvalue `h` the template `Delegate(Functor& functor)` with
`Functor = Delegate` binds without a const conversion and is selected instead,
so `c` is bound to the address of `h` as to a functor. `Self` is the class
`Delegate<R(Args...)>` in the role of `Functor`: its `operator()` on the handle
object at the given address; it returns `R`, which `static_cast<R>` leaves. -/
def Handles.copy_construct (h_const : Bool) (Self : FunctorType H A R) (h_addr : Addr)
    (h : Delegate H A R) : Handles H A R :=
  { original := h,
    copy := if h_const then Delegate.copy_ctor h else Delegate.ctor_functor Self id h_addr }

/-- The statement `c = h;` on an existing handle `c`. -/
def Handles.copy_assign (h c : Delegate H A R) : Handles H A R :=
  { original := h, copy := c.operator_assign h }

/-- The statement `h.clear();` on the original. -/
def Handles.clear_original (s : Handles H A R) : Handles H A R :=
  { original := s.original.clear, copy := s.copy }

/-- The statement `h.bind(...);` on the original. -/
def Handles.bind_original (s : Handles H A R) (b : Binding H A R) : Handles H A R :=
  { original := s.original.bind b, copy := s.copy }

/-! ## A small client program

Memory holds one `int` per address. The free function `add` lives at code
address `100`; class `Counter` has the member `increment` (member-pointer bits
`200`) and the `const` member `get` (bits `201`); class `Accumulator` is a
functor adding its argument to its own total, class `Reader` a functor with a
`const` call operator. The argument pack is the list of `int` arguments. -/

namespace Example

/-- Memory of the client program. -/
abbrev Mem := Addr → Int

/-- The function `int add(int, int)`. -/
def add : List Int → Mem → Int × Mem :=
  fun args mem =>
    match args with
    | [x, y] => (x + y, mem)
    | _ => (0, mem)

/-- The type `int(*)(int, int)`. -/
def Fn_int : FnType Mem (List Int) Int :=
  fun p => if p = 100 then some add else none

/-- The member `int Counter::increment()`: `return ++count;`. -/
def Counter_increment : Addr → List Int → Mem → Int × Mem :=
  fun self _ mem => (mem self + 1, Function.update mem self (mem self + 1))

/-- The member `int Counter::get() const`: `return count;`. -/
def Counter_get : Addr → List Int → Mem → Int × Mem :=
  fun self _ mem => (mem self, mem)

/-- The type `int(Counter::*)()`. -/
def Mem_fn_Counter : MemFnType Mem (List Int) Int :=
  fun c => if c = 200 then some Counter_increment else none

/-- The type `int(Counter::*)() const`. -/
def Mem_fn_Counter_const : MemFnType Mem (List Int) Int :=
  fun c => if c = 201 then some Counter_get else none

/-- The class `Accumulator`: `int operator()(int x) { total += x; return total; }`. -/
def Accumulator : FunctorType Mem (List Int) Int :=
  fun self args mem => (mem self + args.sum, Function.update mem self (mem self + args.sum))

/-- The class `Reader`: `int operator()() const { return value; }`. -/
def Reader : FunctorType Mem (List Int) Int :=
  fun self _ mem => (mem self, mem)

/-- Initial memory: the object at address `1` holds `10`, all others `0`. -/
def mem0 : Mem := fun p => if p = 1 then 10 else 0

/-- Scenario, step 1: a handle bound to `add`. -/
def h_add : Delegate Mem (List Int) Int :=
  Delegate.default_ctor.bind_function Fn_int id (some 100)

/-- Scenario, step 2: the same handle rebound to `Counter::increment` on the
counter at address `1`. -/
def h_counter : Delegate Mem (List Int) Int :=
  h_add.bind_mem_fn Mem_fn_Counter id (some 1) (some 200)

/-- Scenario, step 3: the same handle after `clear()`. -/
def h_cleared : Delegate Mem (List Int) Int :=
  h_counter.clear

/-- Memory after the counter at address `1` went from `10` to `11`. -/
def mem1 : Mem := Function.update mem0 1 11

end Example

/-! ## Histories of one handle -/

/-- The dispatcher lambda that the `bind` overload of a binding stores. -/
def Binding.dispatcher : Binding H A R → Apply H A R
  | Binding.function Fn conv _ => apply_function Fn conv
  | Binding.functor Functor conv _ => apply_functor Functor conv
  | Binding.const_functor Functor conv _ => apply_const_functor Functor conv
  | Binding.mem_fn Mem_fn conv _ _ => apply_mem_fn Mem_fn conv
  | Binding.const_mem_fn Mem_fn conv _ _ => apply_const_mem_fn Mem_fn conv

/-- The fields of a `Storage` that the dispatcher of a binding reads hold the
values that the `bind` call of this binding writes: `dummy_fn` for a free
function, `object` for a functor, `object` and `dummy_mem_fn` for a member
function. -/
def Binding.agrees : Binding H A R → Storage → Prop
  | Binding.function _ _ f, s => s.code = Code.dummy_fn f
  | Binding.functor _ _ g, s => s.object = some g
  | Binding.const_functor _ _ g, s => s.object = some g
  | Binding.mem_fn _ _ o m, s => s.object = o ∧ s.code = Code.dummy_mem_fn m
  | Binding.const_mem_fn _ _ o m, s => s.object = o ∧ s.code = Code.dummy_mem_fn m

instance Binding.agrees_decidable (b : Binding H A R) (s : Storage) : Decidable (b.agrees s) := by
  cases b <;> unfold Binding.agrees <;> infer_instance

/-- A history of one handle object: how it was constructed and which members
were then called on it, oldest innermost. `copy_ctor p` is a handle
copy-constructed from the handle of history `p`; `operator_assign p q` is the
handle of history `p` after it was assigned the handle of history `q`. -/
inductive Prog (H A R : Type) : Type 1 where
  | default_ctor
  | bind (p : Prog H A R) (b : Binding H A R)
  | clear (p : Prog H A R)
  | copy_ctor (p : Prog H A R)
  | operator_assign (p q : Prog H A R)

/-- The handle a history produces. -/
def Prog.handle : Prog H A R → Delegate H A R
  | Prog.default_ctor => Delegate.default_ctor
  | Prog.bind p b => p.handle.bind b
  | Prog.clear p => p.handle.clear
  | Prog.copy_ctor p => Delegate.copy_ctor p.handle
  | Prog.operator_assign p q => p.handle.operator_assign q.handle

/-- The most recent `bind` in the history of a handle that no later `clear()`
undid, followed through copies to the history of the handle copied from. -/
def Prog.last_bind : Prog H A R → Option (Binding H A R)
  | Prog.default_ctor => none
  | Prog.bind _ b => some b
  | Prog.clear _ => none
  | Prog.copy_ctor p => p.last_bind
  | Prog.operator_assign _ q => q.last_bind

/-- The two states of a handle: empty (`apply_` unset) when there is no
binding in effect; otherwise bound, with the dispatcher of that binding stored
and the fields this dispatcher reads as that binding wrote them. -/
def Delegate.consistent_with (self : Delegate H A R) : Option (Binding H A R) → Prop
  | none => self.apply_ = none
  | some b => self.apply_ = some b.dispatcher ∧ b.agrees self.storage_

/-- A fresh handle on which at most one `bind` was called. -/
def Delegate.fresh : Option (Binding H A R) → Delegate H A R
  | none => Delegate.default_ctor
  | some b => (Delegate.default_ctor : Delegate H A R).bind b

/-- The statements `h(a1); h(a2); ...` of a client, one after the other on the
memory the previous one left, collecting the returned values; `call` is the
call expression evaluated each time. A call that does not return ends the run. -/
def call_sequence (call : A → H → Outcome R H) : List A → H → Outcome (List R) H
  | [], mem => Outcome.returned [] mem
  | args :: rest, mem =>
    match call args mem with
    | Outcome.returned value mem1 =>
      static_cast (fun values => value :: values) (call_sequence call rest mem1)
    | Outcome.assert_failed => Outcome.assert_failed
    | Outcome.undefined_behaviour => Outcome.undefined_behaviour

/-! ## The compile-time compatibility check -/

/-- The type traits `std::is_void<T>` and `std::is_convertible<From, To>` over
the types `Ty` of a program. -/
structure Traits (Ty : Type) where
  is_void : Ty → Bool
  is_convertible : Ty → Ty → Bool

/-- The member `is_compatible<FR>()` of `Delegate<R(Args...)>`:
`std::is_void<R>::value || std::is_convertible<FR, R>::value`. -/
def is_compatible {Ty : Type} (traits : Traits Ty) (R FR : Ty) : Bool :=
  traits.is_void R || traits.is_convertible FR R

/-- A functor class as the compiler sees it for the argument types `Args...`:
the return type of its `operator()`, if it declares one, and the return type of
its `operator() const`, if it declares one. -/
structure FunctorClass (Ty : Type) where
  call : Option Ty
  call_const : Option Ty

/-- The type `std::result_of<Functor(Args ...)>::type` for the class type
`Functor` itself: the call is resolved on a non-const object, which takes the
non-const operator when there is one and the const operator otherwise. -/
def FunctorClass.result_of {Ty : Type} (Functor : FunctorClass Ty) : Option Ty :=
  match Functor.call with
  | some FR => some FR
  | none => Functor.call_const

/-- The type of the expression `functor(args ...)` with `functor` of type
`Functor&`, as in the dispatcher of `bind(Functor&)`. -/
def FunctorClass.call_type {Ty : Type} (Functor : FunctorClass Ty) : Option Ty :=
  match Functor.call with
  | some FR => some FR
  | none => Functor.call_const

/-- The type of the expression `functor(args ...)` with `functor` of type
`const Functor&`, as in the dispatcher of `bind(const Functor&)`: only the
const operator can be called. -/
def FunctorClass.const_call_type {Ty : Type} (Functor : FunctorClass Ty) : Option Ty :=
  Functor.call_const

/-- The static types one `bind` overload (or binding constructor) deduces: the
return type `Return` of the function or member function, or the class
`Functor`. -/
inductive BindingType (Ty : Type) where
  | function (Return : Ty)
  | functor (Functor : FunctorClass Ty)
  | const_functor (Functor : FunctorClass Ty)
  | mem_fn (Return : Ty)
  | const_mem_fn (Return : Ty)

/-- The type `FR` in `static_assert(is_compatible<FR>(), ...)` of each
overload; the binding constructors and the `bind` members use the same one. -/
def BindingType.checked {Ty : Type} : BindingType Ty → Option Ty
  | BindingType.function Return => some Return
  | BindingType.functor Functor => Functor.result_of
  | BindingType.const_functor Functor => Functor.result_of
  | BindingType.mem_fn Return => some Return
  | BindingType.const_mem_fn Return => some Return

/-- The type of the call expression inside the dispatcher lambda of each
overload, the operand of `static_cast<R>`. -/
def BindingType.invoked {Ty : Type} : BindingType Ty → Option Ty
  | BindingType.function Return => some Return
  | BindingType.functor Functor => Functor.call_type
  | BindingType.const_functor Functor => Functor.const_call_type
  | BindingType.mem_fn Return => some Return
  | BindingType.const_mem_fn Return => some Return

/-- Whether the `static_assert` of a `bind` overload holds. -/
def bind_static_assert {Ty : Type} (traits : Traits Ty) (R : Ty) (b : BindingType Ty) : Bool :=
  match b.checked with
  | some FR => is_compatible traits R FR
  | none => false

/-- Whether the `static_assert` of a binding constructor and that of the `bind`
it calls both hold. -/
def ctor_static_assert {Ty : Type} (traits : Traits Ty) (R : Ty) (b : BindingType Ty) : Bool :=
  (match b.checked with
    | some FR => is_compatible traits R FR
    | none => false) && bind_static_assert traits R b

namespace Example

/-- Types of the client program: `void`, `int`, a scoped enumeration
`enum class E` and `std::string`. -/
inductive Ty where
  | void
  | int
  | E
  | string
  deriving DecidableEq, Repr

/-- The traits on these types: none of the three value types converts
implicitly to another one. -/
def traits : Traits Ty :=
  { is_void := fun T => decide (T = Ty.void),
    is_convertible := fun From To => decide (From = To) }

/-- The class `G` with `E operator()(int)` and `int operator()(int) const`. -/
def G : FunctorClass Ty :=
  { call := some Ty.E, call_const := some Ty.int }

/-- A handle `Delegate<void()>` bound to `Counter::increment`, which returns
`int`. -/
def h_void : Delegate Mem (List Int) Unit :=
  Delegate.default_ctor.bind_mem_fn Mem_fn_Counter (fun _ => ()) (some 1) (some 200)

end Example

/-- A necessary condition for the dispatcher lambda of a `bind` overload to
compile: its call expression passes the whole pack `Args...` of the handle, one
argument for each element, to a callable declared with parameters `XArgs...`. -/
def call_arity_ok {Ty : Type} (Args XArgs : List Ty) : Bool :=
  Args.length == XArgs.length

namespace Example

/-- The function `int add(int, int)` with its two parameters as a pair. -/
def add_int_int : Int × Int → Mem → Int × Mem :=
  fun args mem => (args.1 + args.2, mem)

/-- The type `int(*)(int, int)` for a handle `Delegate<int(int, int)>`. -/
def Fn_int_int : FnType Mem (Int × Int) Int :=
  fun p => if p = 100 then some add_int_int else none

/-- The member `int Counter::increment()` with its empty parameter list. -/
def Counter_increment_nullary : Addr → Unit → Mem → Int × Mem :=
  fun self _ mem => (mem self + 1, Function.update mem self (mem self + 1))

/-- The type `int(Counter::*)()` for a handle `Delegate<int()>`. -/
def Mem_fn_Counter_nullary : MemFnType Mem Unit Int :=
  fun c => if c = 200 then some Counter_increment_nullary else none

/-- A memory that holds, besides a counter, a handle object `d` of type
`Delegate<int()>`: `d` is either bound to the functor at address `1` or has
been cleared after that binding. -/
structure World where
  count : Int
  d_bound : Bool

/-- The class `Ticker`: `int operator()() { return ++count; }`. -/
def Ticker : FunctorType World Unit Int :=
  fun _ _ w => (w.count + 1, { count := w.count + 1, d_bound := w.d_bound })

/-- The class `OneShot`, which holds a pointer to the handle `d`:
`int operator()() { d->clear(); return count; }`. -/
def OneShot : FunctorType World Unit Int :=
  fun _ _ w => (w.count, { count := w.count, d_bound := false })

/-- The handle object `d` as it stands in a memory, when it was bound to a
`Ticker`. -/
def d_ticker (w : World) : Delegate World Unit Int :=
  if w.d_bound then Delegate.default_ctor.bind_functor Ticker id 1
  else (Delegate.default_ctor.bind_functor Ticker id 1).clear

/-- The handle object `d` as it stands in a memory, when it was bound to a
`OneShot`. -/
def d_one_shot (w : World) : Delegate World Unit Int :=
  if w.d_bound then Delegate.default_ctor.bind_functor OneShot id 1
  else (Delegate.default_ctor.bind_functor OneShot id 1).clear

/-- Initial memory: the counter holds `10` and `d` is bound. -/
def w0 : World := { count := 10, d_bound := true }

end Example

/-! ## Shared lemmas -/

theorem operator_call_bound (NDEBUG : Bool) (self : Delegate H A R) (apply : Apply H A R)
    (h : self.apply_ = some apply) (args : A) (mem : H) :
    self.operator_call NDEBUG args mem = apply self.storage_ args mem := by
  cases NDEBUG <;> simp [Delegate.operator_call, h]

theorem operator_call_bind (NDEBUG : Bool) (self : Delegate H A R) (b : Binding H A R)
    (args : A) (mem : H) :
    (self.bind b).operator_call NDEBUG args mem = b.direct_call args mem := by
  cases b <;> cases NDEBUG <;> rfl

theorem operator_bool_bind (self : Delegate H A R) (b : Binding H A R) :
    (self.bind b).operator_bool = true := by
  cases b <;> rfl

/-! ## Calling a bound handle -/

/-- C1: for every prior state of the handle, binding the free function `f`
(found at address `p` by its pointer type) and calling the handle with `args`
returns `static_cast<R>(f(args))` and leaves the memory as `f(args)` leaves it:
the same outcome as the direct call `f(args)` cast to `R`. -/
theorem C1_bind_function_call (NDEBUG : Bool) (self : Delegate H A R) (Fn : FnType H A R2)
    (conv : R2 → R) (p : Addr) (f : A → H → R2 × H) (hf : Fn p = some f) (args : A) (mem : H) :
    (self.bind_function Fn conv (some p)).operator_call NDEBUG args mem
        = Outcome.returned (conv (f args mem).1) (f args mem).2
      ∧ (self.bind_function Fn conv (some p)).operator_call NDEBUG args mem
        = static_cast conv (call_function Fn (some p) args mem) := by
  have h := operator_call_bind NDEBUG self (Binding.function Fn conv (some p)) args mem
  simp only [Delegate.bind, Binding.direct_call] at h
  refine ⟨?_, h⟩
  rw [h]
  simp [call_function, hf, static_cast]

/-- C1 at a concrete input: `add` bound over a handle that was bound to a
counter object, called with `(2, 3)`. -/
theorem C1_bind_function_call_witness :
    Example.Fn_int 100 = some Example.add
      ∧ ((Delegate.default_ctor.bind_mem_fn Example.Mem_fn_Counter id (some 1)
            (some 200)).bind_function Example.Fn_int id (some 100)).operator_call
          false [2, 3] Example.mem0
        = Outcome.returned 5 Example.mem0 :=
  ⟨rfl, (C1_bind_function_call false _ Example.Fn_int id 100 Example.add rfl [2, 3]
    Example.mem0).1⟩

/-- C2: for every functor instance at address `g`, bound through `bind(Functor&)`
or through `bind(const Functor&)` over any prior handle state, calling the
handle returns the value of the direct call `g(args)` cast to `R`, with the
call operator running on the instance at `g` itself, so the memory afterwards
(the state of `g` included) is the one the direct call leaves. -/
theorem C2_bind_functor_call (NDEBUG : Bool) (self : Delegate H A R)
    (Functor : FunctorType H A R2) (conv : R2 → R) (g : Addr) (args : A) (mem : H) :
    (self.bind_functor Functor conv g).operator_call NDEBUG args mem
        = Outcome.returned (conv (Functor g args mem).1) (Functor g args mem).2
      ∧ (self.bind_const_functor Functor conv g).operator_call NDEBUG args mem
        = Outcome.returned (conv (Functor g args mem).1) (Functor g args mem).2
      ∧ (self.bind_functor Functor conv g).operator_call NDEBUG args mem
        = static_cast conv (call_functor Functor (some g) args mem)
      ∧ (self.bind_const_functor Functor conv g).operator_call NDEBUG args mem
        = static_cast conv (call_functor Functor (some g) args mem) := by
  have h1 := operator_call_bind NDEBUG self (Binding.functor Functor conv g) args mem
  have h2 := operator_call_bind NDEBUG self (Binding.const_functor Functor conv g) args mem
  simp only [Delegate.bind, Binding.direct_call] at h1 h2
  refine ⟨?_, ?_, h1, h2⟩
  · rw [h1]; rfl
  · rw [h2]; rfl

/-- C3: for every object at address `o` and every member function `m` of its
type (designated by the member-pointer bits `c`), non-const through
`bind(T*, m)` and const through `bind(const T*, m)`, calling the handle returns
the value of `(o.*m)(args)` cast to `R` and leaves the memory, the state of `o`
included, as the direct call leaves it. -/
theorem C3_bind_mem_fn_call (NDEBUG : Bool) (self : Delegate H A R) (Mem_fn : MemFnType H A R2)
    (conv : R2 → R) (o c : Addr) (m : Addr → A → H → R2 × H) (hm : Mem_fn c = some m)
    (args : A) (mem : H) :
    (self.bind_mem_fn Mem_fn conv (some o) (some c)).operator_call NDEBUG args mem
        = Outcome.returned (conv (m o args mem).1) (m o args mem).2
      ∧ (self.bind_const_mem_fn Mem_fn conv (some o) (some c)).operator_call NDEBUG args mem
        = Outcome.returned (conv (m o args mem).1) (m o args mem).2
      ∧ (self.bind_mem_fn Mem_fn conv (some o) (some c)).operator_call NDEBUG args mem
        = static_cast conv (call_mem_fn Mem_fn (some o) (some c) args mem)
      ∧ (self.bind_const_mem_fn Mem_fn conv (some o) (some c)).operator_call NDEBUG args mem
        = static_cast conv (call_mem_fn Mem_fn (some o) (some c) args mem) := by
  have h1 := operator_call_bind NDEBUG self
    (Binding.mem_fn Mem_fn conv (some o) (some c)) args mem
  have h2 := operator_call_bind NDEBUG self
    (Binding.const_mem_fn Mem_fn conv (some o) (some c)) args mem
  simp only [Delegate.bind, Binding.direct_call] at h1 h2
  refine ⟨?_, ?_, h1, h2⟩
  · rw [h1]; simp [call_mem_fn, hm, static_cast]
  · rw [h2]; simp [call_mem_fn, hm, static_cast]

/-- C3 at a concrete input: `Counter::increment` on the counter at address `1`,
which holds `10`: the call returns `11` and the counter holds `11`. -/
theorem C3_bind_mem_fn_call_witness :
    Example.Mem_fn_Counter 200 = some Example.Counter_increment
      ∧ ((Delegate.default_ctor : Delegate Example.Mem (List Int) Int).bind_mem_fn
            Example.Mem_fn_Counter id (some 1) (some 200)).operator_call true [] Example.mem0
        = Outcome.returned 11 (Function.update Example.mem0 1 11) :=
  ⟨rfl, (C3_bind_mem_fn_call true _ Example.Mem_fn_Counter id 1 200
    Example.Counter_increment rfl [] Example.mem0).1⟩

/-- C4: for every two bindings `b1` and `b2`, each of any of the five kinds, a
handle (in any prior state) bound to `b1` and then rebound to `b2` gives on
every call the outcome of a fresh handle bound only to `b2`, which is the
outcome of calling the target of `b2` directly once; `b1` plays no part. -/
theorem C4_rebind_replaces (NDEBUG : Bool) (self : Delegate H A R) (b1 b2 : Binding H A R)
    (args : A) (mem : H) :
    ((self.bind b1).bind b2).operator_call NDEBUG args mem
        = ((Delegate.default_ctor : Delegate H A R).bind b2).operator_call NDEBUG args mem
      ∧ ((self.bind b1).bind b2).operator_call NDEBUG args mem = b2.direct_call args mem
      ∧ ((self.bind b1).bind b2).apply_
        = ((Delegate.default_ctor : Delegate H A R).bind b2).apply_ := by
  refine ⟨?_, operator_call_bind NDEBUG _ b2 args mem, ?_⟩
  · rw [operator_call_bind, operator_call_bind]
  · cases b2 <;> rfl

/-- C5: for every handle state, empty or bound by any of the five binding
kinds, the validity check after `clear()` is false. -/
theorem C5_clear_not_bound (self : Delegate H A R) (b : Binding H A R) :
    self.clear.operator_bool = false
      ∧ (Delegate.default_ctor : Delegate H A R).clear.operator_bool = false
      ∧ (self.bind b).clear.operator_bool = false :=
  ⟨rfl, rfl, rfl⟩

/-! ## Empty handles, copies, construction -/

/-- C6 as stated fails: in a build with `NDEBUG` the call operator of a
default-constructed (empty) handle reaches no report; the assertion is
compiled out and the call goes through the null `apply_`. -/
theorem C6_empty_call_counterexample :
    (Delegate.default_ctor : Delegate Example.Mem (List Int) Int).operator_bool = false
      ∧ (Delegate.default_ctor : Delegate Example.Mem (List Int) Int).operator_call
          true [] Example.mem0 = Outcome.undefined_behaviour
      ∧ (Delegate.default_ctor : Delegate Example.Mem (List Int) Int).operator_call
          true [] Example.mem0 ≠ Outcome.assert_failed := by
  refine ⟨rfl, rfl, ?_⟩
  intro h
  cases h

/-- C6, amended: for every empty handle and every argument list, in a build
with assertions enabled the call operator stops at the failed assertion
`apply_ != nullptr`, so it returns no value and leaves no changed memory, also
when the handle was cleared after any binding; in a build with `NDEBUG` the
call is undefined behaviour instead. -/
theorem C6_empty_call (self : Delegate H A R) (hempty : self.operator_bool = false)
    (prior : Delegate H A R) (b : Binding H A R) (args : A) (mem : H) :
    self.operator_call false args mem = Outcome.assert_failed
      ∧ (self.operator_call false args mem).value? = none
      ∧ (self.operator_call false args mem).mem? = none
      ∧ (prior.bind b).clear.operator_call false args mem = Outcome.assert_failed
      ∧ self.operator_call true args mem = Outcome.undefined_behaviour := by
  have h : self.apply_ = none := by
    cases hs : self.apply_ with
    | none => rfl
    | some f => simp [Delegate.operator_bool, hs] at hempty
  refine ⟨?_, ?_, ?_, rfl, ?_⟩ <;> simp [Delegate.operator_call, h, Outcome.value?, Outcome.mem?]

/-- C6, amended, at a concrete input: the handle of the scenario, cleared
after it was bound to `add` and to a counter. -/
theorem C6_empty_call_witness :
    Example.h_cleared.operator_bool = false
      ∧ Example.h_cleared.operator_call false [] Example.mem0 = Outcome.assert_failed :=
  ⟨rfl, (C6_empty_call Example.h_cleared rfl Example.h_add
    (Binding.functor Example.Accumulator id 1) [] Example.mem0).1⟩

/-- C7: copy assignment and copy construction from a const handle copy the
three fields, so the copy gives the outcomes of the original and keeps them
when the original is cleared or rebound; copy construction `Delegate c{ h };`
from a non-const handle `h` does not: the template constructor
`Delegate(Functor&)` is selected, so the context of `c` is the address of `h`
and its dispatcher the functor dispatcher for class `Delegate`, not the fields
of `h`. For `h` bound to `add` at address `5` the context of `c` is `5` while
that of `h` is null, also after `h.clear()`. -/
theorem C7_copy_construct_binds_to_source (Self : FunctorType H A R)
    (SelfEx : FunctorType Example.Mem (List Int) Int) (h_addr : Addr) (h other : Delegate H A R)
    (b : Binding H A R) (NDEBUG : Bool) (args : A) (mem : H) :
    (Handles.copy_construct false Self h_addr h).copy = Delegate.ctor_functor Self id h_addr
      ∧ (Handles.copy_construct false Self h_addr h).copy.storage_.object = some h_addr
      ∧ (Handles.copy_construct false Self h_addr h).copy.apply_
        = some (apply_functor Self id)
      ∧ (Handles.copy_construct false SelfEx 5 Example.h_add).copy.storage_.object = some 5
      ∧ Example.h_add.storage_.object = none
      ∧ (Handles.copy_construct false SelfEx 5 Example.h_add).copy.storage_
        ≠ Example.h_add.storage_
      ∧ (Handles.copy_construct false SelfEx 5 Example.h_add).clear_original.copy.storage_.object
        = some 5
      ∧ (Handles.copy_construct true Self h_addr h).copy.storage_ = h.storage_
      ∧ (Handles.copy_construct true Self h_addr h).copy.apply_ = h.apply_
      ∧ (Handles.copy_construct true Self h_addr h).clear_original.copy.operator_call NDEBUG
          args mem = h.operator_call NDEBUG args mem
      ∧ (Handles.copy_assign h other).copy.storage_ = h.storage_
      ∧ (Handles.copy_assign h other).copy.apply_ = h.apply_
      ∧ (Handles.copy_assign h other).copy.operator_call NDEBUG args mem
        = h.operator_call NDEBUG args mem
      ∧ (Handles.copy_assign h other).clear_original.copy.operator_bool = h.operator_bool
      ∧ (Handles.copy_assign h other).clear_original.copy.operator_call NDEBUG args mem
        = h.operator_call NDEBUG args mem
      ∧ ((Handles.copy_assign h other).bind_original b).copy.operator_call NDEBUG args mem
        = h.operator_call NDEBUG args mem := by
  refine ⟨rfl, rfl, rfl, rfl, rfl, ?_, rfl, rfl, rfl, rfl, rfl, rfl, rfl, rfl, rfl, rfl⟩
  intro hne
  have h5 : (some 5 : Option Addr) = none := congrArg Storage.object hne
  cases h5

/-- C8: for each of the five binding shapes and every callable of that shape,
the handle made by the binding constructor equals, field by field and in the
outcome of every call, the handle made by default construction followed by
`bind` with the same arguments. -/
theorem C8_ctor_is_default_then_bind (b : Binding H A R) (NDEBUG : Bool) (args : A) (mem : H) :
    Delegate.ctor b = (Delegate.default_ctor : Delegate H A R).bind b
      ∧ (Delegate.ctor b).storage_.object
        = ((Delegate.default_ctor : Delegate H A R).bind b).storage_.object
      ∧ (Delegate.ctor b).storage_.code
        = ((Delegate.default_ctor : Delegate H A R).bind b).storage_.code
      ∧ (Delegate.ctor b).apply_ = ((Delegate.default_ctor : Delegate H A R).bind b).apply_
      ∧ (Delegate.ctor b).operator_call NDEBUG args mem
        = ((Delegate.default_ctor : Delegate H A R).bind b).operator_call NDEBUG args mem := by
  have h : Delegate.ctor b = (Delegate.default_ctor : Delegate H A R).bind b := by
    cases b <;> rfl
  exact ⟨h, by rw [h], by rw [h], by rw [h], by rw [h]⟩

/-- C9: the validity check is false for a default-constructed handle; for every
prior handle state it is true after each of the five bind operations and false
after `clear()`; the check reads `apply_` only. -/
theorem C9_validity_transitions (self : Delegate H A R) (b : Binding H A R)
    (Fn : FnType H A R2) (Functor : FunctorType H A R2) (Mem_fn : MemFnType H A R2)
    (conv : R2 → R) (function object mem_fn : Option Addr) (functor : Addr) :
    (Delegate.default_ctor : Delegate H A R).operator_bool = false
      ∧ (self.bind b).operator_bool = true
      ∧ (self.bind_function Fn conv function).operator_bool = true
      ∧ (self.bind_functor Functor conv functor).operator_bool = true
      ∧ (self.bind_const_functor Functor conv functor).operator_bool = true
      ∧ (self.bind_mem_fn Mem_fn conv object mem_fn).operator_bool = true
      ∧ (self.bind_const_mem_fn Mem_fn conv object mem_fn).operator_bool = true
      ∧ self.clear.operator_bool = false
      ∧ (self.bind b).clear.operator_bool = false
      ∧ (self.clear.bind b).operator_bool = true
      ∧ self.operator_bool = self.apply_.isSome :=
  ⟨rfl, operator_bool_bind self b, rfl, rfl, rfl, rfl, rfl, rfl, rfl,
    operator_bool_bind self.clear b, rfl⟩

/-- C10 as stated fails twice. A handle that is called with `(2, 3)` has the
pack `(int, int)` and its member dispatcher would pass two arguments to the
nullary `Counter::increment`, and a handle called with no arguments cannot
hold `add`; and in a build with `NDEBUG` the call on the cleared
`Delegate<int()>` handle is not reported, it is undefined. -/
theorem C10_scenario_counterexample :
    call_arity_ok [Example.Ty.int, Example.Ty.int] ([] : List Example.Ty) = false
      ∧ call_arity_ok ([] : List Example.Ty) [Example.Ty.int, Example.Ty.int] = false
      ∧ ((Delegate.default_ctor : Delegate Example.Mem Unit Int).bind_mem_fn
          Example.Mem_fn_Counter_nullary id (some 1) (some 200)).clear.operator_call true ()
          Example.mem1 = Outcome.undefined_behaviour
      ∧ ((Delegate.default_ctor : Delegate Example.Mem Unit Int).bind_mem_fn
          Example.Mem_fn_Counter_nullary id (some 1) (some 200)).clear.operator_call true ()
          Example.mem1 ≠ Outcome.assert_failed := by
  refine ⟨rfl, rfl, rfl, ?_⟩
  intro h
  cases h

/-- C10, amended: the scenario with one handle for each call signature. On a
`Delegate<int(int, int)>` handle in any prior state, bound to `add`, the call
with `(2, 3)` returns `5`. On a `Delegate<int()>` handle in any prior state,
bound to `Counter::increment` on a counter holding `10`, the call with no
arguments returns `11` and the counter holds `11` afterwards; after `clear()`
of that handle the validity check is false and a further call fails the
assertion in a build with assertions enabled (and is undefined with `NDEBUG`). -/
theorem C10_scenario (NDEBUG : Bool) (prior_add : Delegate Example.Mem (Int × Int) Int)
    (prior : Delegate Example.Mem Unit Int) :
    (prior_add.bind_function Example.Fn_int_int id (some 100)).operator_call NDEBUG (2, 3)
        Example.mem0 = Outcome.returned 5 Example.mem0
      ∧ Example.mem0 1 = 10
      ∧ (prior.bind_mem_fn Example.Mem_fn_Counter_nullary id (some 1) (some 200)).operator_call
          NDEBUG () Example.mem0 = Outcome.returned 11 Example.mem1
      ∧ Example.mem1 1 = 11
      ∧ (prior.bind_mem_fn Example.Mem_fn_Counter_nullary id (some 1)
          (some 200)).clear.operator_bool = false
      ∧ (prior.bind_mem_fn Example.Mem_fn_Counter_nullary id (some 1)
          (some 200)).clear.operator_call false () Example.mem1 = Outcome.assert_failed
      ∧ (prior.bind_mem_fn Example.Mem_fn_Counter_nullary id (some 1)
          (some 200)).clear.operator_call true () Example.mem1
        = Outcome.undefined_behaviour := by
  cases NDEBUG <;> exact ⟨rfl, rfl, rfl, rfl, rfl, rfl, rfl⟩

/-! ## Consistency of the three fields -/

theorem bind_consistent (self : Delegate H A R) (b : Binding H A R) :
    (self.bind b).consistent_with (some b) := by
  cases b <;> simp [Delegate.consistent_with, Delegate.bind, Binding.dispatcher, Binding.agrees,
    Delegate.bind_function, Delegate.bind_functor, Delegate.bind_const_functor,
    Delegate.bind_mem_fn, Delegate.bind_const_mem_fn]

theorem agrees_dispatcher (b : Binding H A R) (s : Storage) (h : b.agrees s) (args : A)
    (mem : H) : b.dispatcher s args mem = b.direct_call args mem := by
  cases b <;> simp only [Binding.agrees] at h <;>
    simp [Binding.dispatcher, Binding.direct_call, apply_function, apply_functor,
      apply_const_functor, apply_mem_fn, apply_const_mem_fn, h]

theorem consistent_operator_call (NDEBUG : Bool) (self : Delegate H A R)
    (l : Option (Binding H A R)) (h : self.consistent_with l) (args : A) (mem : H) :
    self.operator_call NDEBUG args mem = (Delegate.fresh l).operator_call NDEBUG args mem := by
  cases l with
  | none =>
    have h0 : self.apply_ = none := h
    cases NDEBUG <;> simp [Delegate.operator_call, h0, Delegate.fresh, Delegate.default_ctor]
  | some b =>
    obtain ⟨h1, h2⟩ := h
    rw [operator_call_bound NDEBUG self b.dispatcher h1, agrees_dispatcher b _ h2]
    exact (operator_call_bind NDEBUG Delegate.default_ctor b args mem).symm

theorem consistent_operator_bool (self : Delegate H A R) (l : Option (Binding H A R))
    (h : self.consistent_with l) : self.operator_bool = l.isSome := by
  cases l with
  | none =>
    have h0 : self.apply_ = none := h
    simp [Delegate.operator_bool, h0]
  | some b => simp [Delegate.operator_bool, h.1]

theorem prog_consistent (p : Prog H A R) : p.handle.consistent_with p.last_bind := by
  induction p with
  | default_ctor => rfl
  | bind p b _ => exact bind_consistent p.handle b
  | clear p _ => rfl
  | copy_ctor p ih => exact ih
  | operator_assign p q _ ihq => exact ihq

/-- C11: in every state reachable from a default-constructed handle by any
sequence of the five binds, `clear()` and copies, the handle is either empty or
bound with consistent fields: with no binding in effect `apply_` is unset;
otherwise `apply_` is the dispatcher generated by the most recent bind and the
fields this dispatcher reads (`object` for a functor, `dummy_fn` for a free
function, `object` and `dummy_mem_fn` for a member function) hold what that same
bind wrote, so every call has the outcome of a fresh handle with that bind only. -/
theorem C11_reachable_consistent (p : Prog H A R) (NDEBUG : Bool) (args : A) (mem : H) :
    p.handle.consistent_with p.last_bind
      ∧ p.handle.operator_bool = p.last_bind.isSome
      ∧ p.handle.operator_call NDEBUG args mem
        = (Delegate.fresh p.last_bind).operator_call NDEBUG args mem :=
  ⟨prog_consistent p, consistent_operator_bool _ _ (prog_consistent p),
    consistent_operator_call NDEBUG _ _ (prog_consistent p) args mem⟩

/-- C12 as stated fails: binding a free function on a handle that is bound to
the functor at address `1` leaves `storage_.object` at that address, not null. -/
theorem C12_bind_function_counterexample :
    (((Delegate.default_ctor : Delegate Example.Mem (List Int) Int).bind_functor
        Example.Accumulator id 1).bind_function Example.Fn_int id (some 100)).storage_.object
        = some 1
      ∧ (((Delegate.default_ctor : Delegate Example.Mem (List Int) Int).bind_functor
        Example.Accumulator id 1).bind_function Example.Fn_int id (some 100)).storage_.object
        ≠ none := by
  refine ⟨rfl, ?_⟩
  intro h
  cases h

/-- C12, amended: for every prior handle state, binding a free function stores
the address of the function in `dummy_fn` and the free-function dispatcher in
`apply_`; `storage_.object` keeps the value it had (null on a fresh handle),
and the dispatcher gives the same outcome whatever `object` holds. -/
theorem C12_bind_function_fields (self : Delegate H A R) (Fn : FnType H A R2) (conv : R2 → R)
    (function object : Option Addr) (args : A) (mem : H) :
    (self.bind_function Fn conv function).storage_.code = Code.dummy_fn function
      ∧ (self.bind_function Fn conv function).apply_ = some (apply_function Fn conv)
      ∧ (self.bind_function Fn conv function).storage_.object = self.storage_.object
      ∧ ((Delegate.default_ctor : Delegate H A R).bind_function Fn conv
          function).storage_.object = none
      ∧ apply_function Fn conv { object := object, code := Code.dummy_fn function } args mem
        = static_cast conv (call_function Fn function args mem) :=
  ⟨rfl, rfl, rfl, rfl, rfl⟩

/-- C13 as stated fails: after `clear()` the handle of the scenario, which was
bound to `Counter::increment` on the object at address `1`, still holds that
address and the member-pointer bits; its storage is not that of a
default-constructed handle. -/
theorem C13_clear_counterexample :
    Example.h_cleared.storage_.object = some 1
      ∧ Example.h_cleared.storage_.code = Code.dummy_mem_fn (some 200)
      ∧ Example.h_cleared.storage_
        ≠ (Delegate.default_ctor : Delegate Example.Mem (List Int) Int).storage_ := by
  refine ⟨rfl, rfl, ?_⟩
  decide

/-- C13, amended: for every handle state, `clear()` unsets `apply_` and leaves
`storage_` as it was; the cleared handle reports not bound and every call on
it has the outcome of a call on a default-constructed handle; a `bind` after
`clear()` reaches its target as on a fresh handle. -/
theorem C13_clear_fields (self : Delegate H A R) (b : Binding H A R) (NDEBUG : Bool) (args : A)
    (mem : H) :
    self.clear.apply_ = none
      ∧ self.clear.storage_ = self.storage_
      ∧ self.clear.operator_bool = false
      ∧ self.clear.operator_call NDEBUG args mem
        = (Delegate.default_ctor : Delegate H A R).operator_call NDEBUG args mem
      ∧ ((self.bind b).clear.bind b).operator_call NDEBUG args mem
        = (self.bind b).operator_call NDEBUG args mem := by
  refine ⟨rfl, rfl, rfl, ?_, ?_⟩
  · cases NDEBUG <;> rfl
  · rw [operator_call_bind, operator_call_bind]

/-! ## Compatibility check, ignored results, repeated calls, null targets -/

theorem static_cast_mem (conv : R2 → R) (o : Outcome R2 H) :
    (static_cast conv o).mem? = o.mem? := by
  cases o <;> rfl

theorem call_sequence_congr (call1 call2 : A → H → Outcome R H)
    (h : ∀ args mem, call1 args mem = call2 args mem) (argss : List A) (mem : H) :
    call_sequence call1 argss mem = call_sequence call2 argss mem := by
  induction argss generalizing mem with
  | nil => rfl
  | cons args rest ih =>
    simp only [call_sequence, h args mem]
    cases call2 args mem with
    | returned value mem1 => simp only [ih mem1]
    | assert_failed => rfl
    | undefined_behaviour => rfl

/-- C14: `is_compatible<FR>()` is true exactly when `R` is void or `FR`
converts to `R`, and for a free function, a functor bound by `Functor&` and
both member-function kinds the type checked is the type the dispatcher
invokes; for `bind(const Functor&)` it is not: with class `G` (`E operator()(int)`,
`int operator()(int) const`) and `R = E` the `static_assert` of the bind and of
the constructor hold on `E`, while the dispatcher invokes the const operator,
whose `int` is not convertible to `E`. -/
theorem C14_const_functor_check_mismatch :
    (∀ (Ty : Type) (traits : Traits Ty) (R FR : Ty),
        is_compatible traits R FR = (traits.is_void R || traits.is_convertible FR R))
      ∧ (∀ (Ty : Type) (Return : Ty) (Functor : FunctorClass Ty),
        (BindingType.function Return).checked = (BindingType.function Return).invoked
          ∧ (BindingType.functor Functor).checked = (BindingType.functor Functor).invoked
          ∧ (BindingType.mem_fn Return).checked = (BindingType.mem_fn Return).invoked
          ∧ (BindingType.const_mem_fn Return).checked
            = (BindingType.const_mem_fn Return).invoked)
      ∧ bind_static_assert Example.traits Example.Ty.E
          (BindingType.const_functor Example.G) = true
      ∧ ctor_static_assert Example.traits Example.Ty.E
          (BindingType.const_functor Example.G) = true
      ∧ (BindingType.const_functor Example.G).checked = some Example.Ty.E
      ∧ (BindingType.const_functor Example.G).invoked = some Example.Ty.int
      ∧ Example.traits.is_void Example.Ty.E = false
      ∧ Example.traits.is_convertible Example.Ty.int Example.Ty.E = false
      ∧ is_compatible Example.traits Example.Ty.E Example.Ty.int = false :=
  ⟨fun _ _ _ _ => rfl, fun _ _ _ => ⟨rfl, rfl, rfl, rfl⟩, rfl, rfl, rfl, rfl, rfl, rfl, rfl⟩

/-- C15: when `R` is void, for each of the five binding kinds and a callable
returning a value of any type `R2`, the call through the handle is the direct
call of the callable, once, with the given arguments, with its value replaced
by nothing: the memory afterwards is the one the direct call leaves. A handle
`Delegate<void()>` bound to `Counter::increment` takes the counter from `10` to
`11` and returns nothing; the check accepts every return type for a void `R`. -/
theorem C15_void_result_discarded (NDEBUG : Bool) (self : Delegate H A Unit)
    (Fn : FnType H A R2) (Functor : FunctorType H A R2) (Mem_fn : MemFnType H A R2)
    (conv : R2 → Unit) (function object mem_fn : Option Addr) (functor : Addr) (args : A)
    (mem : H) :
    (self.bind_function Fn conv function).operator_call NDEBUG args mem
        = static_cast (fun _ => ()) (call_function Fn function args mem)
      ∧ (self.bind_functor Functor conv functor).operator_call NDEBUG args mem
        = static_cast (fun _ => ()) (call_functor Functor (some functor) args mem)
      ∧ (self.bind_const_functor Functor conv functor).operator_call NDEBUG args mem
        = static_cast (fun _ => ()) (call_functor Functor (some functor) args mem)
      ∧ (self.bind_mem_fn Mem_fn conv object mem_fn).operator_call NDEBUG args mem
        = static_cast (fun _ => ()) (call_mem_fn Mem_fn object mem_fn args mem)
      ∧ (self.bind_const_mem_fn Mem_fn conv object mem_fn).operator_call NDEBUG args mem
        = static_cast (fun _ => ()) (call_mem_fn Mem_fn object mem_fn args mem)
      ∧ ((self.bind_function Fn conv function).operator_call NDEBUG args mem).mem?
        = (call_function Fn function args mem).mem?
      ∧ ((self.bind_functor Functor conv functor).operator_call NDEBUG args mem).mem?
        = (call_functor Functor (some functor) args mem).mem?
      ∧ ((self.bind_const_functor Functor conv functor).operator_call NDEBUG args mem).mem?
        = (call_functor Functor (some functor) args mem).mem?
      ∧ ((self.bind_mem_fn Mem_fn conv object mem_fn).operator_call NDEBUG args mem).mem?
        = (call_mem_fn Mem_fn object mem_fn args mem).mem?
      ∧ ((self.bind_const_mem_fn Mem_fn conv object mem_fn).operator_call NDEBUG args mem).mem?
        = (call_mem_fn Mem_fn object mem_fn args mem).mem?
      ∧ (self.bind_functor Functor conv functor).operator_call NDEBUG args mem
        = Outcome.returned () (Functor functor args mem).2
      ∧ Example.h_void.operator_call NDEBUG [] Example.mem0 = Outcome.returned () Example.mem1
      ∧ (∀ FR : Example.Ty, is_compatible Example.traits Example.Ty.void FR = true) := by
  have hc : conv = fun _ => () := rfl
  have h1 := operator_call_bind NDEBUG self (Binding.function Fn conv function) args mem
  have h2 := operator_call_bind NDEBUG self (Binding.functor Functor conv functor) args mem
  have h3 := operator_call_bind NDEBUG self (Binding.const_functor Functor conv functor) args mem
  have h4 := operator_call_bind NDEBUG self (Binding.mem_fn Mem_fn conv object mem_fn) args mem
  have h5 := operator_call_bind NDEBUG self (Binding.const_mem_fn Mem_fn conv object mem_fn)
    args mem
  simp only [Delegate.bind, Binding.direct_call] at h1 h2 h3 h4 h5
  rw [hc] at h1 h2 h3 h4 h5
  refine ⟨h1, h2, h3, h4, h5, ?_, ?_, ?_, ?_, ?_, ?_, ?_, ?_⟩
  · rw [hc, h1, static_cast_mem]
  · rw [hc, h2, static_cast_mem]
  · rw [hc, h3, static_cast_mem]
  · rw [hc, h4, static_cast_mem]
  · rw [hc, h5, static_cast_mem]
  · rw [hc, h2]; rfl
  · cases NDEBUG <;> rfl
  · intro FR
    cases FR <;> rfl

/-- C16 as stated fails: the handle `d` bound to a `OneShot` functor, whose
call operator clears `d`, is bound before the call and empty after it; the
call returns, and a second call fails the assertion. -/
theorem C16_call_counterexample :
    (Example.d_one_shot Example.w0).operator_bool = true
      ∧ (Example.d_one_shot Example.w0).operator_call false () Example.w0
        = Outcome.returned 10 { count := 10, d_bound := false }
      ∧ (Example.d_one_shot Example.w0).operator_call true () Example.w0
        = Outcome.returned 10 { count := 10, d_bound := false }
      ∧ Example.d_one_shot { count := 10, d_bound := false }
        = (Example.d_one_shot Example.w0).clear
      ∧ (Example.d_one_shot { count := 10, d_bound := false }).operator_bool = false
      ∧ (Example.d_one_shot { count := 10, d_bound := false }).operator_call false ()
          { count := 10, d_bound := false } = Outcome.assert_failed :=
  ⟨rfl, rfl, rfl, rfl, rfl, rfl⟩

/-- C16, amended: the call operator writes nothing itself: a call through a
bound handle leaves exactly the memory that the direct call of the target
leaves. So for a handle object held in memory and bound to a target whose
calls leave that object as it is, after a call that returns the handle is the
same (context, code and dispatcher) and still bound, and any number of
successive calls through it equal the same number of direct calls. -/
theorem C16_call_keeps_handle (NDEBUG : Bool) (handle_at : H → Delegate H A R)
    (b : Binding H A R)
    (hframe : ∀ (args : A) (mem : H) (value : R) (mem1 : H),
      b.direct_call args mem = Outcome.returned value mem1 → handle_at mem1 = handle_at mem)
    (mem : H) (hbound : (handle_at mem).consistent_with (some b)) (args : A)
    (argss : List A) :
    (handle_at mem).operator_call NDEBUG args mem = b.direct_call args mem
      ∧ (∀ (value : R) (mem1 : H),
          (handle_at mem).operator_call NDEBUG args mem = Outcome.returned value mem1 →
            handle_at mem1 = handle_at mem ∧ (handle_at mem1).operator_bool = true)
      ∧ call_sequence (fun args1 mem1 => (handle_at mem1).operator_call NDEBUG args1 mem1)
          argss mem = call_sequence b.direct_call argss mem := by
  have hcall : ∀ (m : H), (handle_at m).consistent_with (some b) → ∀ (a : A),
      (handle_at m).operator_call NDEBUG a m = b.direct_call a m := by
    intro m hm a
    rw [consistent_operator_call NDEBUG _ _ hm a m]
    exact operator_call_bind NDEBUG Delegate.default_ctor b a m
  refine ⟨hcall mem hbound args, ?_, ?_⟩
  · intro value mem1 h
    rw [hcall mem hbound args] at h
    have hsame := hframe args mem value mem1 h
    refine ⟨hsame, ?_⟩
    rw [hsame]
    exact consistent_operator_bool _ _ hbound
  · induction argss generalizing mem with
    | nil => rfl
    | cons a rest ih =>
      simp only [call_sequence, hcall mem hbound a]
      cases hd : b.direct_call a mem with
      | returned value mem1 =>
        have hsame := hframe a mem value mem1 hd
        have hb1 : (handle_at mem1).consistent_with (some b) := by rw [hsame]; exact hbound
        simp only [ih mem1 hb1]
      | assert_failed => rfl
      | undefined_behaviour => rfl

/-- C16, amended, at a concrete input: the handle `d` bound to a `Ticker`,
whose calls change the counter only; three calls through `d` on a counter
holding `10` are three direct calls. -/
theorem C16_call_keeps_handle_witness :
    (∀ (args : Unit) (mem : Example.World) (value : Int) (mem1 : Example.World),
        (Binding.functor Example.Ticker id 1 : Binding Example.World Unit Int).direct_call
          args mem = Outcome.returned value mem1 →
        Example.d_ticker mem1 = Example.d_ticker mem)
      ∧ (Example.d_ticker Example.w0).consistent_with
          (some (Binding.functor Example.Ticker id 1))
      ∧ call_sequence (fun args1 mem1 => (Example.d_ticker mem1).operator_call false args1 mem1)
          [(), (), ()] Example.w0
        = call_sequence (Binding.functor Example.Ticker id 1 :
            Binding Example.World Unit Int).direct_call [(), (), ()] Example.w0 :=
  have hframe : ∀ (args : Unit) (mem : Example.World) (value : Int) (mem1 : Example.World),
      (Binding.functor Example.Ticker id 1 : Binding Example.World Unit Int).direct_call
        args mem = Outcome.returned value mem1 →
      Example.d_ticker mem1 = Example.d_ticker mem := by
    intro args mem value mem1 h
    simp only [Binding.direct_call, call_functor, static_cast, Example.Ticker,
      Outcome.returned.injEq] at h
    rw [← h.2]
    rfl
  ⟨hframe, ⟨rfl, rfl⟩,
    (C16_call_keeps_handle false Example.d_ticker (Binding.functor Example.Ticker id 1) hframe
      Example.w0 ⟨rfl, rfl⟩ () [(), (), ()]).2.2⟩

/-- C17: the validity check reads `apply_` only, not `storage_`; every bind
makes the handle report bound, also `bind` of a null function address, of a
null object pointer or of a null member pointer, and the call through such a
handle goes through the null target, which is undefined behaviour. -/
theorem C17_valid_with_null_target (NDEBUG : Bool) (self : Delegate H A R) (b : Binding H A R)
    (s1 s2 : Storage) (apply : Option (Apply H A R)) (Fn : FnType H A R2)
    (Mem_fn : MemFnType H A R2) (conv : R2 → R) (object mem_fn : Option Addr) (args : A)
    (mem : H) :
    self.operator_bool = self.apply_.isSome
      ∧ Delegate.operator_bool { storage_ := s1, apply_ := apply }
        = Delegate.operator_bool { storage_ := s2, apply_ := apply }
      ∧ (self.bind b).operator_bool = true
      ∧ (self.bind_function Fn conv none).operator_bool = true
      ∧ (self.bind_function Fn conv none).operator_call NDEBUG args mem
        = Outcome.undefined_behaviour
      ∧ (self.bind_mem_fn Mem_fn conv none mem_fn).operator_bool = true
      ∧ (self.bind_mem_fn Mem_fn conv none mem_fn).operator_call NDEBUG args mem
        = Outcome.undefined_behaviour
      ∧ (self.bind_const_mem_fn Mem_fn conv none mem_fn).operator_bool = true
      ∧ (self.bind_const_mem_fn Mem_fn conv none mem_fn).operator_call NDEBUG args mem
        = Outcome.undefined_behaviour
      ∧ (self.bind_mem_fn Mem_fn conv object none).operator_bool = true
      ∧ (self.bind_mem_fn Mem_fn conv object none).operator_call NDEBUG args mem
        = Outcome.undefined_behaviour := by
  have h1 := operator_call_bind NDEBUG self (Binding.function Fn conv none) args mem
  have h2 := operator_call_bind NDEBUG self (Binding.mem_fn Mem_fn conv none mem_fn) args mem
  have h3 := operator_call_bind NDEBUG self (Binding.const_mem_fn Mem_fn conv none mem_fn)
    args mem
  have h4 := operator_call_bind NDEBUG self (Binding.mem_fn Mem_fn conv object none) args mem
  simp only [Delegate.bind, Binding.direct_call] at h1 h2 h3 h4
  refine ⟨rfl, rfl, operator_bool_bind self b, rfl, ?_, rfl, ?_, rfl, ?_, rfl, ?_⟩
  · rw [h1]; rfl
  · rw [h2]; rfl
  · rw [h3]; rfl
  · rw [h4]; cases object <;> rfl

end valley.lang
